import Mathlib

/-!
Verification development for the Confluence MCP HTTP client layer.

The definitions below are a shallow embedding of the Python source:
  - src/confluence_mcp/api_client.py   (client construction, verb operations,
    retry decorator, response processing, paginated fetching)
  - src/confluence_mcp/functions/search.py  (CQL query builder)
  - src/confluence_mcp/functions/page_refactored.py  (page update flow)

Pure fragments become Lean functions; the HTTP transport is an oracle
(a function from attempt number, or from the start offset, to a response);
exceptions become Except values; Python truthiness is made explicit.
-/

namespace ConfluenceMcp

/-- Json values, standing for the Python dict / list / str / int / bool / None
values that flow through the client.  Object fields keep insertion order, as
Python dicts do. -/
inductive Json where
  | null : Json
  | bool (b : Bool) : Json
  | num (n : Int) : Json
  | str (s : String) : Json
  | arr (elems : List Json) : Json
  | obj (fields : List (String × Json)) : Json

/-- Helper for Json.lookup: first binding for a key in an object's field list. -/
def lookupField : List (String × Json) → String → Option Json
  | [], _ => none
  | (k, v) :: rest, key => if k = key then some v else lookupField rest key

/-- Python dict.get k on a JSON value: the value bound to the key when the
receiver is an object containing it, none otherwise.  (In Python, .get on a
non-dict raises; the scenarios modelled here only read object bodies.) -/
def Json.lookup : Json → String → Option Json
  | .obj fields, key => lookupField fields key
  | _, _ => none

/-- Python truthiness of a JSON value: None, False, 0, "", [] and empty
objects are falsy, everything else is truthy. -/
def Json.truthy : Json → Bool
  | .null => false
  | .bool b => b
  | .num n => n != 0
  | .str s => s != ""
  | .arr elems => !elems.isEmpty
  | .obj fields => !fields.isEmpty

/-- ConfluenceError from models.py: message, HTTP status code (0 signals a
transport-level failure where no response was received), and an optional
detailed message. -/
structure ConfluenceError where
  message : String
  status_code : Nat
  detailed_message : Option String
deriving DecidableEq

/-- View of an httpx.Response as consumed by _process_response: the status
code, the raw body (content, with "" modelling empty bytes), and the outcome
of response.json(): parsed = some j when the body parses as JSON value j,
parsed = none when parsing raises, in which case parse_err models str(e). -/
structure HttpResponse where
  status_code : Nat
  content : String
  parsed : Option Json
  parse_err : String

/-- Default message for 401 responses carrying an empty message field. -/
def authFailedMsg : String :=
  "Authentication failed. Please check your API key and credentials."

/-- Default message for 403 responses carrying an empty message field. -/
def permDeniedMsg : String :=
  "Permission denied. You don't have access to this resource."

/-- Default message for 404 responses carrying an empty message field. -/
def notFoundMsg : String :=
  "Resource not found. Please check the ID or path."

/-- Default message for 429 responses carrying an empty message field. -/
def rateLimitMsg : String :=
  "Rate limit exceeded. Please wait before making more requests."

/-- ConfluenceApiClient._process_response (api_client.py lines 275-318),
translated clause by clause.  The message and details fields are read as
strings; a non-string, non-null value in either field is outside the
scenarios modelled here (Python would forward the raw value dynamically),
and theorems that quantify over bodies hypothesise string-typed fields. -/
def process_response (response : HttpResponse) : Except ConfluenceError Json :=
  if response.status_code ≥ 400 then
    let error_data : Json :=
      if response.content = "" then Json.obj [("message", Json.str "Unknown error")]
      else
        match response.parsed with
        | some j => j
        | none => Json.obj [("message", Json.str "Failed to parse error response")]
    let error_message : String :=
      match error_data.lookup "message" with
      | some (Json.str s) => s
      | _ => "API request failed"
    let detailed_message : Option String :=
      match error_data.lookup "details" with
      | some (Json.str s) => some s
      | _ => none
    let error_message : String :=
      if error_message = "" then
        if response.status_code = 401 then authFailedMsg
        else if response.status_code = 403 then permDeniedMsg
        else if response.status_code = 404 then notFoundMsg
        else if response.status_code = 429 then rateLimitMsg
        else "API request failed"
      else error_message
    .error ⟨error_message, response.status_code, detailed_message⟩
  else
    if response.content = "" then .ok (Json.obj [])
    else
      match response.parsed with
      | some j => .ok j
      | none =>
          .error ⟨"Failed to parse JSON response: " ++ response.parse_err,
                  response.status_code,
                  some ("Response content: " ++ response.content.take 100 ++ "...")⟩

/-- Exceptions that can escape one attempt of a verb operation's body:
either a ConfluenceError (raised by the verb itself or _process_response) or
an httpx.RequestError (raised by the transport).  The retry decorator only
catches the second constructor, exactly as its except clause only catches
httpx.RequestError. -/
inductive PyExn where
  | confluenceError (e : ConfluenceError)
  | requestError (msg : String)
deriving DecidableEq

/-- Outcome of one call into the httpx transport (client.get / post / put /
delete): either a response was received, or httpx raised a RequestError with
the given str(e). -/
inductive TransportResult where
  | ok (response : HttpResponse)
  | requestError (msg : String)

/-- Python str.lstrip applied with the slash character: drop every leading
slash of the path (api_client.py builds each URL as api_url/path.lstrip). -/
def lstripSlash (s : String) : String :=
  String.mk (s.data.dropWhile (fun c => c = '/'))

/-- Full request URL built by each verb operation. -/
def request_url (api_url path : String) : String :=
  api_url ++ "/" ++ lstripSlash path

/-- Body of one attempt of a verb operation (api_client.py lines 169-178 for
GET, and the identically shaped bodies of post / put / delete): call the
transport; on a response, process it; on an httpx.RequestError, catch it and
raise a ConfluenceError with status_code 0 and the attempted URL.  verb is
the word interpolated in the log / error message ("GET", "POST", "PUT",
"DELETE").  Note the conversion happens inside the decorated function, so
the exception that escapes is always a confluenceError, never a
requestError. -/
def verb_attempt (verb url : String) : TransportResult → Except PyExn Json
  | .ok response =>
      match process_response response with
      | .ok j => .ok j
      | .error e => .error (.confluenceError e)
  | .requestError msg =>
      .error (.confluenceError
        ⟨"Network error during " ++ verb ++ " request: " ++ msg, 0,
         some ("URL: " ++ url)⟩)

/-- Trace of one run of the retry_on_connection_error wrapper: the final
result, the number of times the wrapped function was attempted, and the list
of backoff delays slept (in seconds, exact rationals). -/
structure RetryTrace (α : Type) where
  result : Except PyExn α
  attempts : Nat
  sleeps : List ℚ

/-- Loop of retry_on_connection_error (api_client.py lines 39-58).  f maps
the 0-based attempt index to that attempt's outcome; fuel is the number of
retries still allowed (initially max_retries, so the Python guard
retries > max_retries coincides with fuel = 0); attempt is the current
0-based attempt index, which equals the Python retries counter at the point
of the call.  Only requestError is retried: a confluenceError propagates at
once because the wrapper's except clause only matches httpx.RequestError.
The delay before the retry after failed attempt i is retry_delay * 2 ^ i,
matching retry_delay * 2 ** (retries - 1) with retries = i + 1. -/
def retry_loop (retry_delay : ℚ) (f : Nat → Except PyExn α) :
    Nat → Nat → RetryTrace α
  | attempt, fuel =>
      match f attempt with
      | .ok a => ⟨.ok a, 1, []⟩
      | .error (.confluenceError e) => ⟨.error (.confluenceError e), 1, []⟩
      | .error (.requestError msg) =>
          match fuel with
          | 0 => ⟨.error (.requestError msg), 1, []⟩
          | fuel' + 1 =>
              let rest := retry_loop retry_delay f (attempt + 1) fuel'
              ⟨rest.result, rest.attempts + 1, retry_delay * 2 ^ attempt :: rest.sleeps⟩

/-- Decorator defaults from retry_on_connection_error(): max_retries = 3. -/
def default_max_retries : Nat := 3

/-- Decorator defaults from retry_on_connection_error(): retry_delay = 1.0. -/
def default_retry_delay : ℚ := 1

/-- Run of a whole decorated verb operation: the decorator applied with its
defaults to the verb body, against a transport that maps the 0-based attempt
index to that attempt's transport outcome. -/
def verb_run (verb api_url path : String) (transport : Nat → TransportResult) :
    RetryTrace Json :=
  retry_loop default_retry_delay
    (fun i => verb_attempt verb (request_url api_url path) (transport i))
    0 default_max_retries

/-- ConfluenceApiClient.get, as decorated. -/
def get_run (api_url path : String) (transport : Nat → TransportResult) :
    RetryTrace Json :=
  verb_run "GET" api_url path transport

/-- ConfluenceApiClient.post, as decorated (the payload does not influence
the control flow modelled here; the transport oracle absorbs it). -/
def post_run (api_url path : String) (transport : Nat → TransportResult) :
    RetryTrace Json :=
  verb_run "POST" api_url path transport

/-- ConfluenceApiClient.put, as decorated. -/
def put_run (api_url path : String) (transport : Nat → TransportResult) :
    RetryTrace Json :=
  verb_run "PUT" api_url path transport

/-- ConfluenceApiClient.delete, as decorated. -/
def delete_run (api_url path : String) (transport : Nat → TransportResult) :
    RetryTrace Json :=
  verb_run "DELETE" api_url path transport

/-- Extraction of a page's result items, as fetch_all_pages does it:
response.get("results", []).  Reading a non-array value there is outside the
modelled scenarios (Python's list.extend would raise on it). -/
def pageResults (body : Json) : List Json :=
  match body.lookup "results" with
  | some (Json.arr elems) => elems
  | _ => []

/-- Next-page indicator test, as fetch_all_pages does it: truthiness of
response.get("_links", some-dict).get("next"); an absent _links object or an
absent next entry is falsy. -/
def pageHasNext (body : Json) : Bool :=
  match body.lookup "_links" with
  | some links =>
      match links.lookup "next" with
      | some v => v.truthy
      | none => false
  | none => false

/-- Python truthiness of the max_pages argument (Optional[int]): None and 0
are falsy, every other integer is truthy. -/
def maxPagesTruthy : Option Int → Bool
  | none => false
  | some m => m != 0

/-- Guard of the second break of fetch_all_pages: max_pages and
page_num >= max_pages. -/
def maxPagesReached (max_pages : Option Int) (page_num : Nat) : Bool :=
  maxPagesTruthy max_pages &&
    match max_pages with
    | none => false
    | some m => (page_num : Int) ≥ m

/-- Loop of ConfluenceApiClient.fetch_all_pages (api_client.py lines
343-366).  server maps a start offset to the JSON body of the successful GET
issued at that offset (a failing GET would propagate its error and abort the
aggregation; the claims address successful traces).  limit is
params["limit"], constant across iterations; start is params["start"],
mutated between iterations; page_num starts at 1.  acc accumulates
all_results and reqs the start offsets of the requests issued so far.  fuel
bounds the number of further requests; when it runs out the result is none,
modelling a loop that has not yet terminated (the Python loop is unbounded).
On termination the result is the aggregated items together with the offsets
of all requests issued. -/
def fetch_loop (server : Nat → Json) (limit : Nat) (max_pages : Option Int) :
    Nat → Nat → Nat → List Json → List Nat → Option (List Json × List Nat)
  | 0, _, _, _, _ => none
  | fuel + 1, start, page_num, acc, reqs =>
      let body := server start
      let results := pageResults body
      let acc := acc ++ results
      let reqs := reqs ++ [start]
      if !pageHasNext body || results.length < limit then
        some (acc, reqs)
      else if maxPagesReached max_pages page_num then
        some (acc, reqs)
      else
        fetch_loop server limit max_pages fuel (start + limit) (page_num + 1) acc reqs

/-- ConfluenceApiClient.fetch_all_pages, started the way the method starts
its loop: start is params.get("start", 0) (0 in every claim scenario), the
page counter is 1, and the accumulators are empty. -/
def fetch_all_pages (server : Nat → Json) (limit : Nat) (max_pages : Option Int)
    (start : Nat) (fuel : Nat) : Option (List Json × List Nat) :=
  fetch_loop server limit max_pages fuel start 1 [] []

/-- Python truthiness of an Optional[str] filter argument: None and "" are
falsy. -/
def optStrTruthy : Option String → Bool
  | none => false
  | some s => s != ""

/-- Appending of one optional CQL clause: cql_parts.append(clause) guarded by
the filter's truthiness. -/
def appendClause (parts : List String) (filter : Option String)
    (clause : String → String) : List String :=
  match filter with
  | some s => if s != "" then parts ++ [clause s] else parts
  | none => parts

/-- Python str.replace of a double quote by backslash-double-quote, applied
to the free-text term. -/
def escapeQuotes (q : String) : String :=
  String.mk (q.data.flatMap (fun c => if c = '"' then ['\\', '"'] else [c]))

/-- The _build_cql_query function of functions/search.py (lines 184-245),
translated clause by clause: the text clause on the escaped query, then the
space, type, date and user clauses, each appended only when its argument is
truthy, joined with " AND ".  The include_archived parameter is accepted and
ignored, as in the source (its status clause was removed; the comment at
search.py line 225 records that the status field is unsupported). -/
def build_cql_query (query : String) (space_id : Option String)
    (content_type : Option String) (include_archived : Bool)
    (created_after : Option String) (created_before : Option String)
    (updated_after : Option String) (updated_before : Option String)
    (creator : Option String) (contributor : Option String) : String :=
  let q := escapeQuotes query
  let cql_parts : List String := ["text ~ \"" ++ q ++ "\""]
  let cql_parts := appendClause cql_parts space_id (fun s => "space.id = " ++ s)
  let cql_parts := appendClause cql_parts content_type (fun s => "type = " ++ s)
  let cql_parts := appendClause cql_parts created_after
    (fun s => "created >= \"" ++ s ++ "\"")
  let cql_parts := appendClause cql_parts created_before
    (fun s => "created <= \"" ++ s ++ "\"")
  let cql_parts := appendClause cql_parts updated_after
    (fun s => "lastmodified >= \"" ++ s ++ "\"")
  let cql_parts := appendClause cql_parts updated_before
    (fun s => "lastmodified <= \"" ++ s ++ "\"")
  let cql_parts := appendClause cql_parts creator
    (fun s => "creator = \"" ++ s ++ "\"")
  let cql_parts := appendClause cql_parts contributor
    (fun s => "contributor = \"" ++ s ++ "\"")
  String.intercalate " AND " cql_parts

/-- Network calls observable from update_page_impl: the GET that reads the
current page and the PUT that writes the update, with the path used and, for
the PUT, the request payload. -/
inductive Request where
  | get (path : String)
  | put (path : String) (data : Json)

/-- Python truthiness of an Optional[dict] argument: None and an empty dict
are falsy. -/
def optJsonTruthy : Option Json → Bool
  | none => false
  | some v => v.truthy

/-- Optional string field of the PUT payload, added only when the argument
is truthy (the `if title:` / `if status:` guards of update_page_impl). -/
def optStrField (key : String) : Option String → List (String × Json)
  | some s => if s != "" then [(key, Json.str s)] else []
  | none => []

/-- Optional JSON field of the PUT payload, added only when the argument is
truthy (the `if body:` guard of update_page_impl). -/
def optJsonField (key : String) : Option Json → List (String × Json)
  | some v => if v.truthy then [(key, v)] else []
  | none => []

/-- The expression current_page.get("version", dict()).get("number", 1) of
update_page_impl: 1 when the version object or its number entry is absent.
A present but non-integer number is outside the modelled scenarios (Python
would raise on the subsequent + 1), as is a present non-dict version value
(Python's .get would raise). -/
def currentVersionNumber (current : Json) : Int :=
  match current.lookup "version" with
  | some v =>
      match v.lookup "number" with
      | some (Json.num k) => k
      | _ => 1
  | none => 1

/-- Version payload built by update_page_impl when no truthy version was
supplied: the fetched page's version number plus one and the default change
message. -/
def autoVersion (current : Json) : Json :=
  Json.obj [("number", Json.num (currentVersionNumber current + 1)),
            ("message", Json.str "Updated via MCP")]

/-- Call sequence of update_page_impl (page_refactored.py lines 221-275).
current is the body of the successful GET on content/id (consulted only when
the version argument is falsy; a failing GET would abort before the PUT).
The payload starts with id and version and appends title, body and status in
that order, each only when truthy, exactly as the source builds data. -/
def update_page_run (id : String) (title : Option String) (body : Option Json)
    (version : Option Json) (status : Option String) (current : Json) :
    List Request :=
  let path := "content/" ++ id
  let fetch_needed := !optJsonTruthy version
  let version : Json :=
    if optJsonTruthy version then version.getD Json.null else autoVersion current
  let data : Json := Json.obj
    ([("id", Json.str id), ("version", version)]
      ++ optStrField "title" title
      ++ optJsonField "body" body
      ++ optStrField "status" status)
  (if fetch_needed then [Request.get path] else []) ++ [Request.put path data]

/-- Result of constructing a ConfluenceApiClient, keeping the fields the
claims inspect: the normalized base URL and the derived REST prefix
api_url.  The authentication header, timeout and connection pool are not
modelled. -/
structure ClientState where
  base_url : String
  api_url : String
deriving DecidableEq

/-- Error message raised for a missing base URL, exactly as in the source. -/
def urlRequiredMsg : String :=
  "CONFLUENCE_URL is required. Please set the CONFLUENCE_URL environment variable to your Confluence instance URL (e.g., https://your-domain.atlassian.net/wiki)"

/-- Error message raised for a missing API key, exactly as in the source. -/
def keyRequiredMsg : String :=
  "CONFLUENCE_API_KEY is required. Please set the CONFLUENCE_API_KEY environment variable to your Confluence API token"

/-- Error message raised for a missing user email, exactly as in the source. -/
def emailRequiredMsg : String :=
  "CONFLUENCE_USER_EMAIL is required. Please set the CONFLUENCE_USER_EMAIL environment variable to your Confluence user email"

/-- First part of the error message raised for a base URL without an
http:// or https:// scheme; the offending URL is appended. -/
def schemeMsgStart : String :=
  "CONFLUENCE_URL must start with http:// or https://. Got: "

/-- The startswith(("http://", "https://")) check of the constructor. -/
def scheme_ok (s : String) : Bool :=
  List.isPrefixOf "http://".data s.data || List.isPrefixOf "https://".data s.data

/-- Python str.rstrip with the slash character: drop every trailing slash. -/
def rstripSlash (s : String) : String :=
  String.mk ((s.data.reverse.dropWhile (fun c => c = '/')).reverse)

/-- URL normalization done by the constructor (api_client.py lines 105-109):
strip all trailing slashes, then strip one trailing "/wiki" segment. -/
def normalize_base (s : String) : String :=
  let s1 := rstripSlash s
  if List.isSuffixOf "/wiki".data s1.data then
    String.mk (s1.data.take (s1.data.length - 5))
  else s1

/-- Process-wide settings consulted by the constructor when an argument is
falsy (config.py: CONFLUENCE_URL, CONFLUENCE_API_KEY, CONFLUENCE_USER_EMAIL,
each defaulting to the empty string). -/
structure SettingsModel where
  CONFLUENCE_URL : String
  CONFLUENCE_API_KEY : String
  CONFLUENCE_USER_EMAIL : String

/-- ConfluenceApiClient.__init__ (api_client.py lines 65-113), up to the
fields modelled by ClientState: fall back to settings for falsy arguments,
validate base URL, API key, user email for non-emptiness in that order, then
validate the scheme, then normalize the base URL and derive
api_url = base_url + "/wiki/rest/api".  Each failure raises ValueError with
the corresponding message and stops. -/
def client_init (base_url api_key user_email : String) (settings : SettingsModel) :
    Except String ClientState :=
  let burl := if base_url = "" then settings.CONFLUENCE_URL else base_url
  let key := if api_key = "" then settings.CONFLUENCE_API_KEY else api_key
  let email := if user_email = "" then settings.CONFLUENCE_USER_EMAIL else user_email
  if burl = "" then .error urlRequiredMsg
  else if key = "" then .error keyRequiredMsg
  else if email = "" then .error emailRequiredMsg
  else if !scheme_ok burl then .error (schemeMsgStart ++ burl)
  else
    let nb := normalize_base burl
    .ok ⟨nb, nb ++ "/wiki/rest/api"⟩

/-- Status-specific default message chain of _process_response, reached only
when the extracted error message is the empty string. -/
def statusDefaultMsg (status : Nat) : String :=
  if status = 401 then authFailedMsg
  else if status = 403 then permDeniedMsg
  else if status = 404 then notFoundMsg
  else if status = 429 then rateLimitMsg
  else "API request failed"

/-- Error message extracted from a parsed error body, as _process_response
computes it: the message field when it is a string, the generic default
otherwise. -/
def errorMessageOf (body : Json) : String :=
  match body.lookup "message" with
  | some (Json.str s) => s
  | _ => "API request failed"

/-- Detailed message extracted from a parsed error body, as
_process_response computes it from the details field. -/
def detailsOf (body : Json) : Option String :=
  match body.lookup "details" with
  | some (Json.str s) => some s
  | _ => none

/-- Termination test of the first break of fetch_all_pages, for the page
body served at one offset: no truthy next-page indicator, or fewer items
than the requested page size. -/
def terminalPage (limit : Nat) (body : Json) : Prop :=
  pageHasNext body = false ∨ (pageResults body).length < limit

instance (limit : Nat) (body : Json) : Decidable (terminalPage limit body) := by
  unfold terminalPage; infer_instance

/-- Two-page scenario from the spec: offset 0 serves two items and a
next-page indicator, any other offset serves one item and no indicator. -/
def twoPageServer : Nat → Json := fun start =>
  if start = 0 then
    Json.obj [("results", Json.arr [Json.str "a", Json.str "b"]),
              ("_links", Json.obj [("next", Json.str "/next")])]
  else
    Json.obj [("results", Json.arr [Json.str "c"]), ("_links", Json.obj [])]

/-- Server that always answers with a full page of two items and a next-page
indicator. -/
def alwaysFullServer : Nat → Json := fun _ =>
  Json.obj [("results", Json.arr [Json.str "x", Json.str "y"]),
            ("_links", Json.obj [("next", Json.str "/next")])]

/-- Transport that raises httpx.RequestError on every attempt. -/
def alwaysFailingTransport : Nat → TransportResult := fun _ =>
  TransportResult.requestError "Connection error"

set_option maxRecDepth 100000

/-- Claim C1.  The spec says only transport-level failures trigger retries
(maxRetries = 3, baseDelaySeconds = 1.0, exponential backoff) and that a
transport failing on every attempt yields 4 attempts and 3 backoff sleeps
before the terminal normalized error.  On the code, each verb catches
httpx.RequestError inside the decorated body and converts it to a
ConfluenceError, which the retry wrapper does not catch, so no verb ever
retries: against a transport that fails on every attempt, each of the four
verbs performs exactly one attempt and zero sleeps, surfacing the normalized
error (statusCode 0, detailedMessage carrying the attempted URL)
immediately. -/
theorem claim_C1_no_retry_on_transport_failure :
    get_run "https://example.atlassian.net/wiki/rest/api" "spaces"
        alwaysFailingTransport =
      ⟨.error (.confluenceError
        ⟨"Network error during GET request: Connection error", 0,
         some "URL: https://example.atlassian.net/wiki/rest/api/spaces"⟩), 1, []⟩ ∧
    post_run "https://example.atlassian.net/wiki/rest/api" "content"
        alwaysFailingTransport =
      ⟨.error (.confluenceError
        ⟨"Network error during POST request: Connection error", 0,
         some "URL: https://example.atlassian.net/wiki/rest/api/content"⟩), 1, []⟩ ∧
    put_run "https://example.atlassian.net/wiki/rest/api" "content/1"
        alwaysFailingTransport =
      ⟨.error (.confluenceError
        ⟨"Network error during PUT request: Connection error", 0,
         some "URL: https://example.atlassian.net/wiki/rest/api/content/1"⟩), 1, []⟩ ∧
    delete_run "https://example.atlassian.net/wiki/rest/api" "content/1"
        alwaysFailingTransport =
      ⟨.error (.confluenceError
        ⟨"Network error during DELETE request: Connection error", 0,
         some "URL: https://example.atlassian.net/wiki/rest/api/content/1"⟩), 1, []⟩ :=
  ⟨rfl, rfl, rfl, rfl⟩

/-- The retry wrapper by itself, applied to a body that raises a raw
httpx.RequestError on every attempt, does perform the documented 4 attempts
with exponential backoff sleeps of 1, 2 and 4 seconds before re-raising; the
verb operations never reach this behaviour because they convert the
exception before the wrapper sees it. -/
theorem retry_wrapper_retries_raw_request_errors :
    (retry_loop default_retry_delay
        (fun _ => Except.error (PyExn.requestError "boom")) 0 default_max_retries :
      RetryTrace Json).attempts = 4 ∧
    (retry_loop default_retry_delay
        (fun _ => Except.error (PyExn.requestError "boom")) 0 default_max_retries :
      RetryTrace Json).sleeps = [1, 2, 4] ∧
    (retry_loop default_retry_delay
        (fun _ => Except.error (PyExn.requestError "boom")) 0 default_max_retries :
      RetryTrace Json).result = Except.error (PyExn.requestError "boom") := by
  refine ⟨rfl, ?_, rfl⟩
  norm_num [retry_loop, default_retry_delay, default_max_retries]

/-- Claim C3, counterexample.  The structured query builder, given
query = "test" and no other filters, returns the string composed of the text
clause alone; the archived-status clause claimed by the spec is absent, so
the result differs from the claimed string. -/
theorem claim_C3_counterexample :
    build_cql_query "test" none none false none none none none none none =
      "text ~ \"test\"" ∧
    build_cql_query "test" none none false none none none none none none ≠
      "text ~ \"test\" AND status != archived" := by
  refine ⟨rfl, ?_⟩
  rw [show build_cql_query "test" none none false none none none none none none =
    "text ~ \"test\"" from rfl]
  decide

/-- Claim C3, amended.  The builder, given query = "test" and no other
filters, returns exactly the text clause; supplying space_id = "S1" and
content_type = "page" appends the space clause and then the type clause, in
that fixed order, joined with AND after the text clause.  No archived clause
is produced (the source removed it; search.py line 225 records that the
status field is unsupported by the Confluence Cloud REST API). -/
theorem claim_C3_amended :
    build_cql_query "test" none none false none none none none none none =
      "text ~ \"test\"" ∧
    build_cql_query "test" (some "S1") (some "page") false none none none none none none =
      "text ~ \"test\" AND space.id = S1 AND type = page" :=
  ⟨rfl, rfl⟩

/-- Claim C5.  With max_pages = 1 against a server that always serves a
full page carrying a next-page indicator, fetch_all_pages issues exactly one
request (at the initial offset) and returns exactly that page's items: the
page cap is checked after the first page and stops the loop. -/
theorem claim_C5_page_cap_one (server : Nat → Json) (L start fuel : Nat)
    (hfuel : 0 < fuel)
    (hnext : ∀ s, pageHasNext (server s) = true)
    (hfull : ∀ s, (pageResults (server s)).length = L) :
    fetch_all_pages server L (some 1) start fuel =
      some (pageResults (server start), [start]) := by
  obtain ⟨n, rfl⟩ : ∃ n, fuel = n + 1 := ⟨fuel - 1, by omega⟩
  simp [fetch_all_pages, fetch_loop, hnext, hfull, maxPagesReached, maxPagesTruthy]

/-- Witness for claim C5 at the always-full two-item server with page size
2, initial offset 0 and one unit of fuel. -/
theorem claim_C5_page_cap_one_witness :
    (0 : Nat) < 1 ∧
    (∀ s : Nat, pageHasNext (alwaysFullServer s) = true) ∧
    (∀ s : Nat, (pageResults (alwaysFullServer s)).length = 2) ∧
    fetch_all_pages alwaysFullServer 2 (some 1) 0 1 =
      some (pageResults (alwaysFullServer 0), [0]) :=
  ⟨Nat.one_pos, fun _ => rfl, fun _ => rfl,
   claim_C5_page_cap_one alwaysFullServer 2 0 1 Nat.one_pos
     (fun _ => rfl) (fun _ => rfl)⟩

/-- The max_pages guard treats the cap 0 exactly like None: Python evaluates
the conjunct max_pages first, and both None and 0 are falsy, so the loop of
fetch_all_pages never consults page_num in either case. -/
theorem fetch_loop_zero_cap (server : Nat → Json) (L : Nat) :
    ∀ fuel start page_num acc reqs,
      fetch_loop server L (some 0) fuel start page_num acc reqs =
        fetch_loop server L none fuel start page_num acc reqs := by
  intro fuel
  induction fuel with
  | zero => intro _ _ _ _; rfl
  | succ n ih =>
      intro start pn acc reqs
      simp only [fetch_loop, maxPagesReached, maxPagesTruthy]
      split
      · rfl
      · simp only [bne_self_eq_false, Bool.false_and, Bool.false_eq_true, if_false]
        exact ih (start + L) (pn + 1) _ _

/-- Claim C10.  Calling fetch_all_pages with max_pages = 0 behaves exactly
like calling it with no page cap at all: the cap guard is falsy for 0, so
the aggregation runs until a natural termination condition, identically to
the None case, whatever the server and fuel. -/
theorem claim_C10_zero_cap_disabled (server : Nat → Json) (L start fuel : Nat) :
    fetch_all_pages server L (some 0) start fuel =
      fetch_all_pages server L none start fuel :=
  fetch_loop_zero_cap server L fuel start 1 [] []

/-- Helper: a success-status response with an empty body yields the empty
mapping. -/
theorem process_response_success_empty (r : HttpResponse)
    (h : r.status_code < 400) (hc : r.content = "") :
    process_response r = .ok (Json.obj []) := by
  simp [process_response, hc, Nat.not_le.2 h]

/-- Helper: a success-status response with a parseable body yields the
parsed body unchanged. -/
theorem process_response_success_json (r : HttpResponse) (j : Json)
    (h : r.status_code < 400) (hc : r.content ≠ "") (hp : r.parsed = some j) :
    process_response r = .ok j := by
  simp [process_response, hc, hp, Nat.not_le.2 h]

/-- Helper: a success-status response whose non-empty body fails to parse
yields a ConfluenceError carrying the parse error and a truncated body
snippet. -/
theorem process_response_parse_failure (r : HttpResponse)
    (h : r.status_code < 400) (hc : r.content ≠ "") (hp : r.parsed = none) :
    process_response r =
      .error ⟨"Failed to parse JSON response: " ++ r.parse_err, r.status_code,
              some ("Response content: " ++ r.content.take 100 ++ "...")⟩ := by
  simp [process_response, hc, hp, Nat.not_le.2 h]

/-- Helper: the retry wrapper returns after one attempt when the wrapped
body succeeds. -/
theorem retry_loop_of_ok {α : Type} (delay : ℚ) (f : Nat → Except PyExn α)
    (attempt fuel : Nat) (v : α) (h : f attempt = .ok v) :
    retry_loop delay f attempt fuel = ⟨.ok v, 1, []⟩ := by
  unfold retry_loop
  rw [h]

/-- Helper: the retry wrapper re-raises after one attempt when the wrapped
body raises anything other than httpx.RequestError. -/
theorem retry_loop_of_confluence {α : Type} (delay : ℚ) (f : Nat → Except PyExn α)
    (attempt fuel : Nat) (e : ConfluenceError)
    (h : f attempt = .error (.confluenceError e)) :
    retry_loop delay f attempt fuel = ⟨.error (.confluenceError e), 1, []⟩ := by
  unfold retry_loop
  rw [h]

/-- Helper: a decorated verb run against a transport whose first attempt
returns a response is decided entirely by _process_response on that
response. -/
theorem verb_run_single_response (verb api_url path : String)
    (transport : Nat → TransportResult) (r : HttpResponse)
    (ht : transport 0 = .ok r) :
    verb_run verb api_url path transport =
      match process_response r with
      | .ok v => ⟨.ok v, 1, []⟩
      | .error e => ⟨.error (.confluenceError e), 1, []⟩ := by
  cases hpr : process_response r with
  | ok v =>
      exact retry_loop_of_ok _ _ _ _ v (by simp [verb_attempt, ht, hpr])
  | error e =>
      exact retry_loop_of_confluence _ _ _ _ e (by simp [verb_attempt, ht, hpr])

/-- Claim C9.  For every response with a status code below 400, each of the
four verb operations returns, in a single attempt: the empty mapping when
the body is empty; the body parsed as JSON, unchanged, when it parses; and,
when the non-empty body fails to parse, an ApiError whose message carries
the parse error, whose detailedMessage carries the first 100 characters of
the raw body, and whose statusCode is the response status. -/
theorem claim_C9_success_processing (api_url path : String) (r : HttpResponse)
    (j : Json) (hlt : r.status_code < 400) :
    (r.content = "" →
      get_run api_url path (fun _ => .ok r) = ⟨.ok (Json.obj []), 1, []⟩ ∧
      post_run api_url path (fun _ => .ok r) = ⟨.ok (Json.obj []), 1, []⟩ ∧
      put_run api_url path (fun _ => .ok r) = ⟨.ok (Json.obj []), 1, []⟩ ∧
      delete_run api_url path (fun _ => .ok r) = ⟨.ok (Json.obj []), 1, []⟩) ∧
    (r.content ≠ "" → r.parsed = some j →
      get_run api_url path (fun _ => .ok r) = ⟨.ok j, 1, []⟩ ∧
      post_run api_url path (fun _ => .ok r) = ⟨.ok j, 1, []⟩ ∧
      put_run api_url path (fun _ => .ok r) = ⟨.ok j, 1, []⟩ ∧
      delete_run api_url path (fun _ => .ok r) = ⟨.ok j, 1, []⟩) ∧
    (r.content ≠ "" → r.parsed = none →
      ∀ verb ∈ ["GET", "POST", "PUT", "DELETE"],
        verb_run verb api_url path (fun _ => .ok r) =
          ⟨.error (.confluenceError
            ⟨"Failed to parse JSON response: " ++ r.parse_err, r.status_code,
             some ("Response content: " ++ r.content.take 100 ++ "...")⟩), 1, []⟩) := by
  have hrun : ∀ verb, verb_run verb api_url path (fun _ => .ok r) =
      match process_response r with
      | .ok v => ⟨.ok v, 1, []⟩
      | .error e => ⟨.error (.confluenceError e), 1, []⟩ :=
    fun verb => verb_run_single_response verb api_url path _ r rfl
  refine ⟨fun hc => ?_, fun hc hp => ?_, fun hc hp verb _ => ?_⟩
  · have hpr := process_response_success_empty r hlt hc
    simp [get_run, post_run, put_run, delete_run, hrun, hpr]
  · have hpr := process_response_success_json r j hlt hc hp
    simp [get_run, post_run, put_run, delete_run, hrun, hpr]
  · have hpr := process_response_parse_failure r hlt hc hp
    simp [hrun, hpr]

/-- Witness for claim C9 at a concrete 200-status response whose body is the
string value "v". -/
theorem claim_C9_success_processing_witness :
    (200 : Nat) < 400 ∧
    (("body" : String) ≠ "" →
      (some (Json.str "v") : Option Json) = some (Json.str "v") →
      get_run "https://u/wiki/rest/api" "search"
          (fun _ => .ok ⟨200, "body", some (Json.str "v"), ""⟩) =
        ⟨.ok (Json.str "v"), 1, []⟩ ∧
      post_run "https://u/wiki/rest/api" "search"
          (fun _ => .ok ⟨200, "body", some (Json.str "v"), ""⟩) =
        ⟨.ok (Json.str "v"), 1, []⟩ ∧
      put_run "https://u/wiki/rest/api" "search"
          (fun _ => .ok ⟨200, "body", some (Json.str "v"), ""⟩) =
        ⟨.ok (Json.str "v"), 1, []⟩ ∧
      delete_run "https://u/wiki/rest/api" "search"
          (fun _ => .ok ⟨200, "body", some (Json.str "v"), ""⟩) =
        ⟨.ok (Json.str "v"), 1, []⟩) :=
  ⟨by decide,
   (claim_C9_success_processing "https://u/wiki/rest/api" "search"
     ⟨200, "body", some (Json.str "v"), ""⟩ (Json.str "v") (by decide)).2.1⟩

/-- Claim C2, counterexample.  A 401 response whose parsed body has no
message field produces the generic message "API request failed", not the
claimed status-specific authentication default: dict.get returns the truthy
generic default when the key is absent, so the status-specific branch is
never reached for absent message fields. -/
theorem claim_C2_counterexample :
    process_response ⟨401, "e", some (Json.obj [("details", Json.str "d")]), ""⟩ =
      Except.error ⟨"API request failed", 401, some "d"⟩ ∧
    ("API request failed" : String) ≠ authFailedMsg :=
  ⟨rfl, by decide⟩

/-- Helper: the error branch of _process_response on a parseable body, in
terms of the extraction functions errorMessageOf and detailsOf. -/
theorem process_response_error_body (r : HttpResponse) (body : Json)
    (h4 : 400 ≤ r.status_code) (hc : r.content ≠ "") (hp : r.parsed = some body) :
    process_response r =
      .error ⟨if errorMessageOf body = "" then statusDefaultMsg r.status_code
              else errorMessageOf body,
              r.status_code, detailsOf body⟩ := by
  simp [process_response, errorMessageOf, detailsOf, statusDefaultMsg, hc, hp, h4]

/-- Claim C2, amended.  For a response with status ≥ 400 and a parseable
non-empty body: the error's statusCode is the response status; its message
is the body's message field when that field is present and non-empty; when
the message field is present but EMPTY the status-specific default applies
(401 → authentication failed, 403 → permission denied, 404 → resource not
found, 429 → rate limited, otherwise a generic failure message); when the
message field is ABSENT the message is the generic "API request failed"
regardless of status; the detailedMessage is the body's details field when
present and omitted when absent. -/
theorem claim_C2_amended (status : Nat) (content parse_err : String)
    (fields : List (String × Json)) (h4 : 400 ≤ status) (hc : content ≠ "") :
    ∃ e, process_response ⟨status, content, some (Json.obj fields), parse_err⟩ =
        .error e ∧
      e.status_code = status ∧
      (∀ m, lookupField fields "message" = some (Json.str m) → m ≠ "" →
        e.message = m) ∧
      (∀ m, lookupField fields "message" = some (Json.str m) → m = "" →
        e.message = statusDefaultMsg status) ∧
      (lookupField fields "message" = none → e.message = "API request failed") ∧
      (∀ d, lookupField fields "details" = some (Json.str d) →
        e.detailed_message = some d) ∧
      (lookupField fields "details" = none → e.detailed_message = none) ∧
      statusDefaultMsg 401 = authFailedMsg ∧
      statusDefaultMsg 403 = permDeniedMsg ∧
      statusDefaultMsg 404 = notFoundMsg ∧
      statusDefaultMsg 429 = rateLimitMsg := by
  refine ⟨_, process_response_error_body _ (Json.obj fields) h4 hc rfl,
    rfl, ?_, ?_, ?_, ?_, ?_, rfl, rfl, rfl, rfl⟩
  · intro m hm hne
    simp [errorMessageOf, Json.lookup, hm, hne]
  · intro m hm hme
    subst hme
    simp [errorMessageOf, Json.lookup, hm]
  · intro hm
    simp [errorMessageOf, Json.lookup, hm]
  · intro d hd
    simp [detailsOf, Json.lookup, hd]
  · intro hd
    simp [detailsOf, Json.lookup, hd]

/-- Witness for claim C2 (amended) at the spec's own example: a 404 with
body message "Not found" and details "gone". -/
theorem claim_C2_amended_witness :
    400 ≤ 404 ∧ ("e" : String) ≠ "" ∧
    ∃ e, process_response
        ⟨404, "e", some (Json.obj [("message", Json.str "Not found"),
                                   ("details", Json.str "gone")]), ""⟩ =
        .error e ∧
      e.status_code = 404 ∧
      (∀ m, lookupField [("message", Json.str "Not found"),
                         ("details", Json.str "gone")] "message" =
          some (Json.str m) → m ≠ "" → e.message = m) ∧
      (∀ m, lookupField [("message", Json.str "Not found"),
                         ("details", Json.str "gone")] "message" =
          some (Json.str m) → m = "" → e.message = statusDefaultMsg 404) ∧
      (lookupField [("message", Json.str "Not found"),
                    ("details", Json.str "gone")] "message" = none →
        e.message = "API request failed") ∧
      (∀ d, lookupField [("message", Json.str "Not found"),
                         ("details", Json.str "gone")] "details" =
          some (Json.str d) → e.detailed_message = some d) ∧
      (lookupField [("message", Json.str "Not found"),
                    ("details", Json.str "gone")] "details" = none →
        e.detailed_message = none) ∧
      statusDefaultMsg 401 = authFailedMsg ∧
      statusDefaultMsg 403 = permDeniedMsg ∧
      statusDefaultMsg 404 = notFoundMsg ∧
      statusDefaultMsg 429 = rateLimitMsg :=
  ⟨by decide, by decide,
   claim_C2_amended 404 "e" ""
     [("message", Json.str "Not found"), ("details", Json.str "gone")]
     (by decide) (by decide)⟩

/-- Claim C6.  Updating a page without an explicit version first issues a
GET for the page, reads its current version number N, and then issues a PUT
whose payload carries version number N + 1 together with the default change
message "Updated via MCP"; updating with an explicit (truthy) version issues
no GET and sends the supplied version unchanged in the single PUT. -/
theorem claim_C6_update_version (id : String) (title : Option String)
    (body : Option Json) (status : Option String) (current : Json) (N : Int)
    (hver : (current.lookup "version").bind (fun v => Json.lookup v "number") =
      some (Json.num N)) :
    (∃ data, update_page_run id title body none status current =
        [Request.get ("content/" ++ id), Request.put ("content/" ++ id) data] ∧
      data.lookup "version" =
        some (Json.obj [("number", Json.num (N + 1)),
                        ("message", Json.str "Updated via MCP")])) ∧
    (∀ v : Json, v.truthy = true →
      ∃ data, update_page_run id title body (some v) status current =
          [Request.put ("content/" ++ id) data] ∧
        data.lookup "version" = some v) := by
  obtain ⟨v0, h0, h1⟩ : ∃ v0, current.lookup "version" = some v0 ∧
      Json.lookup v0 "number" = some (Json.num N) := by
    cases h0 : current.lookup "version" with
    | none => rw [h0] at hver; exact Option.noConfusion hver
    | some v0 =>
        rw [h0] at hver
        exact ⟨v0, rfl, hver⟩
  have hcvn : currentVersionNumber current = N := by
    simp [currentVersionNumber, h0, h1]
  constructor
  · refine ⟨Json.obj ([("id", Json.str id), ("version", autoVersion current)]
      ++ optStrField "title" title ++ optJsonField "body" body
      ++ optStrField "status" status), rfl, ?_⟩
    simp [Json.lookup, lookupField, autoVersion, hcvn]
  · intro v hv
    refine ⟨Json.obj ([("id", Json.str id), ("version", v)]
      ++ optStrField "title" title ++ optJsonField "body" body
      ++ optStrField "status" status), ?_, ?_⟩
    · simp [update_page_run, optJsonTruthy, hv]
    · simp [Json.lookup, lookupField]

/-- Witness for claim C6 at a concrete page whose current version number is
5: the auto-incremented PUT carries version 6, and an explicit version 9 is
sent unchanged. -/
theorem claim_C6_update_version_witness :
    ((Json.obj [("version", Json.obj [("number", Json.num 5)])]).lookup
        "version").bind (fun v => Json.lookup v "number") =
      some (Json.num 5) ∧
    ((∃ data, update_page_run "123" none none none none
        (Json.obj [("version", Json.obj [("number", Json.num 5)])]) =
        [Request.get "content/123", Request.put "content/123" data] ∧
      data.lookup "version" =
        some (Json.obj [("number", Json.num (5 + 1)),
                        ("message", Json.str "Updated via MCP")])) ∧
    (∀ v : Json, v.truthy = true →
      ∃ data, update_page_run "123" none none (some v) none
          (Json.obj [("version", Json.obj [("number", Json.num 5)])]) =
          [Request.put "content/123" data] ∧
        data.lookup "version" = some v)) :=
  ⟨rfl, claim_C6_update_version "123" none none none
    (Json.obj [("version", Json.obj [("number", Json.num 5)])]) 5 rfl⟩

/-- Helper: a string obtained by appending to a differs from b whenever the
two disagree on a prefix that lies inside a. -/
theorem append_ne_of_take_ne (a b u : String) (n : Nat)
    (hn : n ≤ a.data.length) (h : a.data.take n ≠ b.data.take n) : a ++ u ≠ b := by
  intro heq
  apply h
  have hd : a.data ++ u.data = b.data := by
    rw [← String.data_append, heq]
  rw [← hd, List.take_append_of_le_length hn]

/-- Helper: a Boolean prefix test survives appending to the larger string. -/
theorem isPrefixOf_append_of_isPrefixOf (p a b : List Char)
    (h : List.isPrefixOf p a = true) : List.isPrefixOf p (a ++ b) = true :=
  List.isPrefixOf_iff_prefix.mpr
    ((List.isPrefixOf_iff_prefix.mp h).trans (List.prefix_append a b))

/-- Claim C7.  Construction validates the effective configuration in the
fixed order base URL non-empty, then API key non-empty, then user email
non-empty, then base URL scheme; the first violation alone decides the
error, each of the four failure messages is distinct from the others, and
each non-emptiness message starts with the name of the missing setting (as
does the scheme message). -/
theorem claim_C7_validation_order (u k e : String) :
    (u = "" → client_init u k e ⟨"", "", ""⟩ = .error urlRequiredMsg) ∧
    (u ≠ "" → k = "" → client_init u k e ⟨"", "", ""⟩ = .error keyRequiredMsg) ∧
    (u ≠ "" → k ≠ "" → e = "" →
      client_init u k e ⟨"", "", ""⟩ = .error emailRequiredMsg) ∧
    (u ≠ "" → k ≠ "" → e ≠ "" → scheme_ok u = false →
      client_init u k e ⟨"", "", ""⟩ = .error (schemeMsgStart ++ u)) ∧
    (urlRequiredMsg ≠ keyRequiredMsg ∧ urlRequiredMsg ≠ emailRequiredMsg ∧
      keyRequiredMsg ≠ emailRequiredMsg) ∧
    (schemeMsgStart ++ u ≠ urlRequiredMsg ∧ schemeMsgStart ++ u ≠ keyRequiredMsg ∧
      schemeMsgStart ++ u ≠ emailRequiredMsg) ∧
    (List.isPrefixOf "CONFLUENCE_URL".data urlRequiredMsg.data = true ∧
      List.isPrefixOf "CONFLUENCE_API_KEY".data keyRequiredMsg.data = true ∧
      List.isPrefixOf "CONFLUENCE_USER_EMAIL".data emailRequiredMsg.data = true ∧
      List.isPrefixOf "CONFLUENCE_URL".data (schemeMsgStart ++ u).data = true) := by
  refine ⟨fun hu => ?_, fun hu hk => ?_, fun hu hk he => ?_, fun hu hk he hs => ?_,
    ⟨by decide, by decide, by decide⟩,
    ⟨append_ne_of_take_ne _ _ _ 20 (by decide) (by decide),
     append_ne_of_take_ne _ _ _ 20 (by decide) (by decide),
     append_ne_of_take_ne _ _ _ 20 (by decide) (by decide)⟩,
    ⟨by decide, by decide, by decide, ?_⟩⟩
  · subst hu; rfl
  · subst hk; simp [client_init, hu]
  · subst he; simp [client_init, hu, hk]
  · simp [client_init, hu, hk, he, hs]
  · rw [String.data_append]
    exact isPrefixOf_append_of_isPrefixOf _ _ _ (by decide)

/-- Witness for claim C7 at a concrete invalid configuration (an empty API
key behind a well-formed base URL). -/
theorem claim_C7_validation_order_witness :
    ("https://u.example.net" : String) ≠ "" ∧ ("" : String) = "" ∧
    client_init "https://u.example.net" "" "e@x" ⟨"", "", ""⟩ =
      .error keyRequiredMsg :=
  ⟨by decide, rfl,
   (claim_C7_validation_order "https://u.example.net" "" "e@x").2.1
     (by decide) rfl⟩

/-- Helper: stripping trailing slashes absorbs one appended slash. -/
theorem rstripSlash_append_slash (s : String) :
    rstripSlash (s ++ "/") = rstripSlash s := by
  simp [rstripSlash, String.data_append, show ("/" : String).data = ['/'] from rfl,
    List.dropWhile]

/-- Helper: a string ending in the wiki segment has no trailing slash, so
stripping trailing slashes leaves it unchanged. -/
theorem rstripSlash_append_wiki (s : String) :
    rstripSlash (s ++ "/wiki") = s ++ "/wiki" := by
  simp [rstripSlash, String.data_append,
    show ("/wiki" : String).data = ['/', 'w', 'i', 'k', 'i'] from rfl, List.dropWhile]
  rfl

/-- Helper: normalization strips exactly one appended wiki segment. -/
theorem normalize_append_wiki (s : String) : normalize_base (s ++ "/wiki") = s := by
  unfold normalize_base
  rw [rstripSlash_append_wiki]
  have hsuf : List.isSuffixOf "/wiki".data (s ++ "/wiki").data = true := by
    rw [String.data_append]
    exact List.isSuffixOf_iff_suffix.mpr (List.suffix_append _ _)
  rw [if_pos hsuf, String.data_append]
  have hl : (s.data ++ "/wiki".data).length - 5 = s.data.length := by
    simp [List.length_append, show ("/wiki" : String).data.length = 5 from rfl]
  rw [hl, List.take_left]

/-- Helper: normalization is blind to one appended trailing slash. -/
theorem normalize_append_slash (s : String) :
    normalize_base (s ++ "/") = normalize_base s := by
  unfold normalize_base
  rw [rstripSlash_append_slash]

/-- Helper: the scheme check survives appending to the URL. -/
theorem scheme_ok_append (s t : String) (h : scheme_ok s = true) :
    scheme_ok (s ++ t) = true := by
  unfold scheme_ok at h ⊢
  rw [String.data_append]
  rcases Bool.or_eq_true_iff.mp h with h1 | h1
  · exact Bool.or_eq_true_iff.mpr (Or.inl (isPrefixOf_append_of_isPrefixOf _ _ _ h1))
  · exact Bool.or_eq_true_iff.mpr (Or.inr (isPrefixOf_append_of_isPrefixOf _ _ _ h1))

/-- Helper: appending a non-empty string never yields the empty string. -/
theorem append_ne_empty (s t : String) (h : t ≠ "") : s ++ t ≠ "" := by
  intro heq
  apply h
  have hd := congrArg String.data heq
  rw [String.data_append] at hd
  have : t.data = [] := (List.append_eq_nil.mp hd).2
  exact congrArg String.mk this

/-- Claim C8.  For a non-empty base URL (with a valid key and email):
construction fails exactly when the URL lacks an http:// or https://
scheme; when it succeeds, the stored base URL is the normalization that
strips all trailing slashes and then one trailing wiki segment, and the
derived resource prefix appends "/wiki/rest/api" to it; appending a
trailing slash to a valid URL changes nothing, and appending "/wiki" to a
valid URL that is already normalized also changes nothing — in particular
the derived prefix never gains a duplicated wiki segment from a trailing
"/wiki" in the input. -/
theorem claim_C8_base_url_normalization (url k e : String)
    (hu : url ≠ "") (hk : k ≠ "") (he : e ≠ "") :
    (scheme_ok url = false →
      client_init url k e ⟨"", "", ""⟩ = .error (schemeMsgStart ++ url)) ∧
    (scheme_ok url = true →
      client_init url k e ⟨"", "", ""⟩ =
        .ok ⟨normalize_base url, normalize_base url ++ "/wiki/rest/api"⟩) ∧
    (scheme_ok url = true →
      client_init (url ++ "/") k e ⟨"", "", ""⟩ =
        client_init url k e ⟨"", "", ""⟩) ∧
    (scheme_ok url = true → rstripSlash url = url →
      List.isSuffixOf "/wiki".data url.data = false →
      client_init (url ++ "/wiki") k e ⟨"", "", ""⟩ =
        client_init url k e ⟨"", "", ""⟩) := by
  refine ⟨fun hs => ?_, fun hs => ?_, fun hs => ?_, fun hs hstrip hsuf => ?_⟩
  · simp [client_init, hu, hk, he, hs]
  · simp [client_init, hu, hk, he, hs]
  · have h1 : (url ++ "/") ≠ "" := append_ne_empty url "/" (by decide)
    have h2 : scheme_ok (url ++ "/") = true := scheme_ok_append url "/" hs
    simp [client_init, hu, hk, he, hs, h1, h2, normalize_append_slash]
  · have h1 : (url ++ "/wiki") ≠ "" := append_ne_empty url "/wiki" (by decide)
    have h2 : scheme_ok (url ++ "/wiki") = true := scheme_ok_append url "/wiki" hs
    have h3 : normalize_base url = url := by
      unfold normalize_base
      rw [hstrip, if_neg (by simp [hsuf])]
    simp [client_init, hu, hk, he, hs, h1, h2, normalize_append_wiki, h3]

/-- Witness for claim C8 at a concrete Atlassian-style base URL. -/
theorem claim_C8_base_url_normalization_witness :
    ("https://x.atlassian.net" : String) ≠ "" ∧ ("k" : String) ≠ "" ∧
    ("e" : String) ≠ "" ∧ scheme_ok "https://x.atlassian.net" = true ∧
    rstripSlash "https://x.atlassian.net" = "https://x.atlassian.net" ∧
    List.isSuffixOf "/wiki".data ("https://x.atlassian.net" : String).data = false ∧
    client_init "https://x.atlassian.net" "k" "e" ⟨"", "", ""⟩ =
      .ok ⟨normalize_base "https://x.atlassian.net",
           normalize_base "https://x.atlassian.net" ++ "/wiki/rest/api"⟩ ∧
    client_init ("https://x.atlassian.net" ++ "/wiki") "k" "e" ⟨"", "", ""⟩ =
      client_init "https://x.atlassian.net" "k" "e" ⟨"", "", ""⟩ := by
  have h := claim_C8_base_url_normalization "https://x.atlassian.net" "k" "e"
    (by decide) (by decide) (by decide)
  exact ⟨by decide, by decide, by decide, by decide, by decide, by decide,
    h.2.1 (by decide), h.2.2.2 (by decide) (by decide) (by decide)⟩

/-- Helper: splitting one request off the offset sequence. -/
theorem range_map_offset (start L k : Nat) :
    (List.range (k + 1)).map (fun i => start + i * L) =
      start :: (List.range k).map (fun i => (start + L) + i * L) := by
  rw [List.range_succ_eq_map]
  simp only [List.map_cons, List.map_map, Function.comp]
  refine congrArg₂ _ (by ring) ?_
  apply List.map_congr_left
  intro a _
  simp only [Function.comp_apply, Nat.succ_eq_add_one]
  ring

/-- Helper: splitting one page off the page-contents sequence. -/
theorem range_map_page (server : Nat → Json) (start L k : Nat) :
    (List.range (k + 1)).map (fun i => pageResults (server (start + i * L))) =
      pageResults (server start) ::
        (List.range k).map (fun i => pageResults (server ((start + L) + i * L))) := by
  rw [List.range_succ_eq_map]
  simp only [List.map_cons, List.map_map, Function.comp]
  refine congrArg₂ _ (by norm_num) ?_
  apply List.map_congr_left
  intro a _
  simp only [Function.comp_apply, Nat.succ_eq_add_one]
  have harith : start + (a + 1) * L = start + L + a * L := by ring
  rw [harith]

/-- Helper: a false first-break guard means the served page was not
terminal. -/
theorem not_terminal_of_guard_false {L : Nat} {body : Json}
    (hg : ¬((!pageHasNext body || decide ((pageResults body).length < L)) = true)) :
    ¬ terminalPage L body := by
  intro ht
  apply hg
  rcases ht with h | h
  · exact Bool.or_eq_true_iff.mpr (Or.inl (by simp [h]))
  · exact Bool.or_eq_true_iff.mpr (Or.inr (decide_eq_true h))

/-- Helper: a true first-break guard means the served page was terminal. -/
theorem terminal_of_guard_true {L : Nat} {body : Json}
    (hg : (!pageHasNext body || decide ((pageResults body).length < L)) = true) :
    terminalPage L body := by
  rcases Bool.or_eq_true_iff.mp hg with h | h
  · exact Or.inl (by simpa using h)
  · exact Or.inr (of_decide_eq_true h)

/-- Invariant of the fetch_all_pages loop: whenever the loop terminates, it
has issued requests at offsets advancing from the current start in steps of
the requested page size, the aggregate extends the accumulator with each
visited page's items in arrival order, every page except possibly the last
was non-terminal, and with no page cap the last page is terminal. -/
theorem fetch_loop_spec (server : Nat → Json) (L : Nat) (mp : Option Int) :
    ∀ fuel start page_num acc reqs0 agg reqs,
      fetch_loop server L mp fuel start page_num acc reqs0 = some (agg, reqs) →
      ∃ k, 1 ≤ k ∧
        reqs = reqs0 ++ (List.range k).map (fun i => start + i * L) ∧
        agg = acc ++ ((List.range k).map
          (fun i => pageResults (server (start + i * L)))).flatten ∧
        (∀ i, i + 1 < k → ¬ terminalPage L (server (start + i * L))) ∧
        (mp = none → terminalPage L (server (start + (k - 1) * L))) := by
  intro fuel
  induction fuel with
  | zero =>
      intro start pn acc reqs0 agg reqs h
      exact absurd h (by simp [fetch_loop])
  | succ n ih =>
      intro start pn acc reqs0 agg reqs h
      simp only [fetch_loop] at h
      by_cases hg : (!pageHasNext (server start) ||
          decide ((pageResults (server start)).length < L)) = true
      · rw [if_pos hg] at h
        simp only [Option.some.injEq, Prod.mk.injEq] at h
        obtain ⟨hagg, hreqs⟩ := h
        refine ⟨1, le_refl 1, ?_, ?_, ?_, ?_⟩
        · rw [← hreqs]
          simp [List.range_succ]
        · rw [← hagg]
          simp [List.range_succ]
        · intro i hi
          omega
        · intro _
          simpa using terminal_of_guard_true hg
      · rw [if_neg hg] at h
        by_cases hcap : maxPagesReached mp pn = true
        · rw [if_pos hcap] at h
          simp only [Option.some.injEq, Prod.mk.injEq] at h
          obtain ⟨hagg, hreqs⟩ := h
          refine ⟨1, le_refl 1, ?_, ?_, ?_, ?_⟩
          · rw [← hreqs]
            simp [List.range_succ]
          · rw [← hagg]
            simp [List.range_succ]
          · intro i hi
            omega
          · intro hmp
            subst hmp
            exact absurd hcap (by simp [maxPagesReached, maxPagesTruthy])
        · rw [if_neg hcap] at h
          obtain ⟨k, hk1, hreqs, hagg, hnt, hterm⟩ := ih (start + L) (pn + 1) _ _ _ _ h
          refine ⟨k + 1, by omega, ?_, ?_, ?_, ?_⟩
          · rw [hreqs, range_map_offset]
            simp
          · rw [hagg, range_map_page]
            simp [List.flatten]
          · intro i hi
            cases i with
            | zero =>
                simpa using not_terminal_of_guard_false hg
            | succ j =>
                have hj := hnt j (by omega)
                have harith : start + L + j * L = start + (j + 1) * L := by ring
                rw [harith] at hj
                exact hj
          · intro hmp
            have ht := hterm hmp
            obtain ⟨m, rfl⟩ : ∃ m, k = m + 1 := ⟨k - 1, by omega⟩
            have harith : start + L + (m + 1 - 1) * L = start + (m + 1 + 1 - 1) * L := by
              simp [Nat.succ_mul]
              ring
            rw [harith] at ht
            exact ht

/-- Claim C4.  For every terminating paginated fetch: the aggregate is the
concatenation of each requested page's items in arrival order; requests are
issued at offsets start, start + L, start + 2L, ... advancing by exactly the
requested page size L regardless of how many items each page returned;
every page the loop continued past was non-terminal (had a next-page
indicator and a full L items), and with no page cap the final page is
terminal (no next-page indicator, or fewer than L items).  In particular,
in the two-page scenario with page size 2 — a full first page with a
next-page indicator, then a one-item page without one — the aggregate has
the 3 items in arrival order from exactly 2 requests at offsets 0 and 2. -/
theorem claim_C4_pagination_aggregation :
    (∀ (server : Nat → Json) (L : Nat) (mp : Option Int)
        (start fuel : Nat) (agg : List Json) (reqs : List Nat),
      fetch_all_pages server L mp start fuel = some (agg, reqs) →
      agg = (reqs.map (fun s => pageResults (server s))).flatten ∧
      ∃ k, 1 ≤ k ∧ reqs = (List.range k).map (fun i => start + i * L) ∧
        (∀ i, i + 1 < k → ¬ terminalPage L (server (start + i * L))) ∧
        (mp = none → terminalPage L (server (start + (k - 1) * L)))) ∧
    fetch_all_pages twoPageServer 2 none 0 10 =
      some ([Json.str "a", Json.str "b", Json.str "c"], [0, 2]) := by
  constructor
  · intro server L mp start fuel agg reqs h
    obtain ⟨k, hk1, hreqs, hagg, hnt, hterm⟩ := fetch_loop_spec server L mp
      fuel start 1 [] [] agg reqs h
    simp only [List.nil_append] at hreqs hagg
    refine ⟨?_, k, hk1, hreqs, hnt, hterm⟩
    rw [hreqs, hagg, List.map_map]
    rfl
  · rfl

/-- Witness for claim C4 at the spec's two-page scenario. -/
theorem claim_C4_pagination_aggregation_witness :
    fetch_all_pages twoPageServer 2 none 0 10 =
      some ([Json.str "a", Json.str "b", Json.str "c"], [0, 2]) ∧
    ([Json.str "a", Json.str "b", Json.str "c"] : List Json) =
      (([0, 2] : List Nat).map (fun s => pageResults (twoPageServer s))).flatten ∧
    ∃ k, 1 ≤ k ∧ ([0, 2] : List Nat) = (List.range k).map (fun i => 0 + i * 2) ∧
      (∀ i, i + 1 < k → ¬ terminalPage 2 (twoPageServer (0 + i * 2))) ∧
      ((none : Option Int) = none → terminalPage 2 (twoPageServer (0 + (k - 1) * 2))) := by
  have h := (claim_C4_pagination_aggregation).1 twoPageServer 2 none 0 10
    [Json.str "a", Json.str "b", Json.str "c"] [0, 2] rfl
  exact ⟨rfl, h.1, h.2⟩

end ConfluenceMcp
